import Mathlib

/-!
Verification of the extreme-point-to-bounding-box annotation engine
(`src/TumorAnnotation.py`, class `TumorAnnotationWidget`).

Shallow embedding conventions:
* 3D points and the slider value are rationals (`ℚ`), the exact idealization
  of the Python float arithmetic used by the handlers (only `+ - * / min max`
  occur, so the rational model is exact on rational inputs).
* The widget's mutable fields become a `SessionState` record; each Qt slot
  (`onPointPlaced`, `onCreateBBoxButtonClicked`, `onRelaxSliderChanged`,
  `onSubmitButtonClicked`, `onNextButtonClicked`, `onLoadButtonClicked`,
  `onDirectoryChanged`) becomes a state-transition function.
* Scene-graph nodes are reduced to the data the handlers read back from them:
  the fiducial node to its control-point count, the ROI node to the
  center/size pair set via `SetCenter`/`SetSize` and read back via
  `GetXYZ`/`GetRadiusXYZ`.  Rendering, the selection/interaction nodes and
  `updateUI` (widget enabling) hold no data the handlers read.
* The volume-orientation columns computed at lines 206-213 (from the
  IJK-to-RAS matrix, with `np.linalg.norm` idealized as a real square root)
  are modelled separately over `ℝ` as `frameColumns`.
* File-system writes (`json.dump`) are collaborator I/O; record emission is
  modelled as the pure value the submit handler serializes.
-/

/-- A 3D point in RAS (physical) coordinates. -/
abbrev Point3 : Type := ℚ × ℚ × ℚ

/-- Component-wise minimum of two points. -/
def vmin (a b : Point3) : Point3 :=
  (min a.1 b.1, min a.2.1 b.2.1, min a.2.2 b.2.2)

/-- Component-wise maximum of two points. -/
def vmax (a b : Point3) : Point3 :=
  (max a.1 b.1, max a.2.1 b.2.1, max a.2.2 b.2.2)

/-- Model of `np.min(points, axis=0)`: component-wise minimum over a point list.
`numpy` raises on an empty array; the handlers only reach this behind a
six-point guard, so the empty case (here `(0,0,0)`) is never consulted. -/
def npMin : List Point3 → Point3
  | [] => (0, 0, 0)
  | p :: ps => ps.foldl vmin p

/-- Model of `np.max(points, axis=0)`: component-wise maximum over a point list. -/
def npMax : List Point3 → Point3
  | [] => (0, 0, 0)
  | p :: ps => ps.foldl vmax p

/-- The data of the `vtkMRMLMarkupsROINode` that the module reads back:
the center set by `SetCenter` (returned by `GetXYZ`) and the size set by
`SetSize` (half of which is returned by `GetRadiusXYZ`). -/
structure BBoxNode where
  center : Point3
  size : Point3
deriving DecidableEq

/-- Lines 184-193 of `onCreateBBoxButtonClicked` (and the identical
recomputation at lines 240-248 of `onRelaxSliderChanged`):
`minCoords`/`maxCoords` are the component-wise extrema, the relaxation is
subtracted from the minima and added to the maxima, then
`center = (minCoords + maxCoords) / 2` and `size = maxCoords - minCoords`. -/
def computeBBox (ps : List Point3) (relaxation : ℚ) : BBoxNode :=
  let minCoords := npMin ps
  let maxCoords := npMax ps
  let minR : Point3 :=
    (minCoords.1 - relaxation, minCoords.2.1 - relaxation, minCoords.2.2 - relaxation)
  let maxR : Point3 :=
    (maxCoords.1 + relaxation, maxCoords.2.1 + relaxation, maxCoords.2.2 + relaxation)
  { center := ((minR.1 + maxR.1) / 2, (minR.2.1 + maxR.2.1) / 2, (minR.2.2 + maxR.2.2) / 2),
    size := (maxR.1 - minR.1, maxR.2.1 - minR.2.1, maxR.2.2 - minR.2.2) }

/-- The mutable fields of `TumorAnnotationWidget` that the modelled handlers
read or write.  `fidCount` is the fiducial node's control-point count and
`fiducialPresent` whether the node exists (`self.fiducialNode is not None`);
`volumeLoaded` records that `slicer.util.loadVolume` has run, i.e. that the
background volume node queried at line 171 exists.  `boundingBoxModel` is
omitted: it is only ever `None` in the source.  `placementActive` is omitted:
it is set but never read. -/
structure SessionState where
  currentFileIndex : Nat
  pointCoordinates : List Point3
  fidCount : Nat
  fiducialPresent : Bool
  volumeLoaded : Bool
  boundingBoxNode : Option BBoxNode
  relaxSlider : ℚ
  niftiFiles : List String
deriving DecidableEq

/-- Handler `enterPlacementMode` (lines 65-82): creates the fiducial node (with zero
control points) when absent; otherwise the existing node and its points are
kept.  The selection/interaction-node updates are viewer state with no
readback in this module. -/
def enterPlacementMode (s : SessionState) : SessionState :=
  if s.fiducialPresent then s
  else { s with fiducialPresent := true, fidCount := 0 }

/-- Method `clearAnnotation` (lines 141-152): empties `pointCoordinates`, removes
the fiducial node and the bounding-box node. -/
def clearAnnotationState (s : SessionState) : SessionState :=
  { s with pointCoordinates := [],
           fiducialPresent := false,
           fidCount := 0,
           boundingBoxNode := none }

/-- Handler `onPointPlaced` (lines 154-162).  The observer fires after the markups
node has committed the new point, so the node's count already includes it;
the handler copies the node's last point into `pointCoordinates` only while
`GetNumberOfControlPoints() <= 6`. -/
def onPointPlaced (p : Point3) (s : SessionState) : SessionState :=
  if s.fiducialPresent then
    let s1 := { s with fidCount := s.fidCount + 1 }
    if s1.fidCount ≤ 6 then
      { s1 with pointCoordinates := s1.pointCoordinates ++ [p] }
    else s1
  else s

/-- Handler `onCreateBBoxButtonClicked` (lines 164-233): returns with an error
message when fewer than six control points exist (line 166) or when no
background volume is loaded (line 172); otherwise stores a new ROI node
computed by `computeBBox` from `pointCoordinates` and the slider value, and
re-enters placement mode.  The orientation alignment at lines 204-228 only
writes the node's object-to-node matrix (modelled separately as
`frameColumns`); it does not alter the center/size set at lines 201-202. -/
def onCreateBBoxButtonClicked (s : SessionState) : SessionState :=
  if s.fidCount < 6 then s
  else if s.volumeLoaded = false then s
  else
    enterPlacementMode
      { s with boundingBoxNode := some (computeBBox s.pointCoordinates s.relaxSlider) }

/-- Handler `onRelaxSliderChanged` (lines 235-265).  The slider control already holds
the new value when the slot runs.  The handler returns at once when no box
node exists or fewer than six coordinates are recorded; otherwise it
recomputes min/max/center/size with the new value and calls `SetSize`.
`GetParentTransformNode()` is always `None` in this module (no transform is
ever attached to the ROI node), so the center-updating branch at lines
252-260 never runs and the node's center is left as it was. -/
def onRelaxSliderChanged (v : ℚ) (s : SessionState) : SessionState :=
  let s1 := { s with relaxSlider := v }
  match s1.boundingBoxNode with
  | none => s1
  | some b =>
    if s1.pointCoordinates.length < 6 then s1
    else
      enterPlacementMode
        { s1 with boundingBoxNode := some ⟨b.center, (computeBBox s1.pointCoordinates v).size⟩ }

/-- The JSON payload assembled by `onSubmitButtonClicked` (lines 273-286). -/
structure AnnotationRecord where
  filename : String
  points : List Point3
  center : Point3
  size : Point3
  relaxation : ℚ
deriving DecidableEq

/-- The record produced by `onSubmitButtonClicked` (lines 267-286), `none`
when the guard at line 269 fires (no box node, or fewer than six recorded
coordinates).  `GetXYZ` returns the stored center; `GetRadiusXYZ` returns
half the stored size, and each radius component is doubled at line 286.
Python's `self.niftiFiles[self.currentFileIndex]` requires the index to be
in range (it raises `IndexError` otherwise); the in-range case is modelled
with `List.getD`. -/
def emitRecord (s : SessionState) : Option AnnotationRecord :=
  match s.boundingBoxNode with
  | none => none
  | some b =>
    if s.pointCoordinates.length < 6 then none
    else
      let radius : Point3 := (b.size.1 / 2, b.size.2.1 / 2, b.size.2.2 / 2)
      some { filename := s.niftiFiles.getD s.currentFileIndex "",
             points := s.pointCoordinates,
             center := b.center,
             size := (radius.1 * 2, radius.2.1 * 2, radius.2.2 * 2),
             relaxation := s.relaxSlider }

/-- Handler `onSubmitButtonClicked` (lines 267-298): builds the record and writes it
to `annotations/<stem>.json` (collaborator I/O); no widget field changes. -/
def onSubmitButtonClicked (s : SessionState) : SessionState × Option AnnotationRecord :=
  (s, emitRecord s)

/-- Method `loadCurrentFile` (lines 126-139): returns when the index is out of
range; otherwise clears the annotation, loads the volume and re-enters
placement mode. -/
def loadCurrentFile (s : SessionState) : SessionState :=
  if s.currentFileIndex < s.niftiFiles.length then
    enterPlacementMode { clearAnnotationState s with volumeLoaded := true }
  else s

/-- Handler `onLoadButtonClicked` (lines 107-124) given the sorted NIfTI listing of
the chosen directory (directory scanning is a collaborator concern): stores
the listing, resets the index, and loads the first file unless the listing
is empty (in which case only an error message is shown). -/
def onLoadButtonClicked (fs : List String) (s : SessionState) : SessionState :=
  let s1 := { s with niftiFiles := fs, currentFileIndex := 0 }
  if fs.isEmpty then s1 else loadCurrentFile s1

/-- Handler `onDirectoryChanged` (lines 99-105): drops the file listing
(`del self.niftiFiles`), resets the index and clears the annotation. -/
def onDirectoryChanged (s : SessionState) : SessionState :=
  clearAnnotationState { s with niftiFiles := [], currentFileIndex := 0 }

/-- Handler `onNextButtonClicked` (lines 300-305).  Python's
`currentFileIndex < len(niftiFiles) - 1` over unbounded integers is
equivalent to `currentFileIndex + 1 < length` (also when the listing is
empty, where `len - 1 = -1`). -/
def onNextButtonClicked (s : SessionState) : SessionState :=
  if s.currentFileIndex + 1 < s.niftiFiles.length then
    loadCurrentFile { s with currentFileIndex := s.currentFileIndex + 1 }
  else s

/-- The discrete external events the widget reacts to. -/
inductive UIEvent where
  | pointPlaced (p : Point3)
  | createBBox
  | relaxChanged (v : ℚ)
  | submitClicked
  | nextClicked
  | loadClicked (fs : List String)
  | directoryChanged

/-- Dispatch of one external event to its handler. -/
def applyEvent : UIEvent → SessionState → SessionState
  | .pointPlaced p, s => onPointPlaced p s
  | .createBBox, s => onCreateBBoxButtonClicked s
  | .relaxChanged v, s => onRelaxSliderChanged v s
  | .submitClicked, s => (onSubmitButtonClicked s).1
  | .nextClicked, s => onNextButtonClicked s
  | .loadClicked fs, s => onLoadButtonClicked fs s
  | .directoryChanged, s => onDirectoryChanged s

/-- The widget state after `__init__` (lines 31-38) and `setup` (which ends
by entering placement mode, line 63); `v0` is the slider's initial UI
value. -/
def initialState (v0 : ℚ) : SessionState :=
  { currentFileIndex := 0,
    pointCoordinates := [],
    fidCount := 0,
    fiducialPresent := true,
    volumeLoaded := false,
    boundingBoxNode := none,
    relaxSlider := v0,
    niftiFiles := [] }

/-- Session states that can actually occur: the initial state and anything
produced from a reachable state by one external event. -/
inductive Reachable : SessionState → Prop where
  | boot (v0 : ℚ) : Reachable (initialState v0)
  | evt {s : SessionState} (e : UIEvent) (h : Reachable s) : Reachable (applyEvent e s)

/-- Delivery of a sequence of committed points, in order. -/
def deliverPoints (ps : List Point3) (s : SessionState) : SessionState :=
  ps.foldl (fun t p => onPointPlaced p t) s

/-- The six points of the worked scenario in the specification. -/
def demoPoints : List Point3 :=
  [(0, 0, 0), (10, 0, 0), (0, 10, 0), (0, 0, 10), (10, 10, 0), (10, 0, 10)]

/-- A session that has loaded a one-volume batch and placed the six demo
points, reached purely through external events. -/
def loadedState : SessionState :=
  deliverPoints demoPoints (applyEvent (.loadClicked ["a.nii"]) (initialState 0))

/-- The state `loadedState` after the create-box button was clicked. -/
def demoState : SessionState := applyEvent .createBBox loadedState

/-- A state with the demo points that has never stored a box. -/
def pureStateA : SessionState :=
  { currentFileIndex := 0, pointCoordinates := demoPoints, fidCount := 6,
    fiducialPresent := true, volumeLoaded := true, boundingBoxNode := none,
    relaxSlider := 1, niftiFiles := ["a.nii"] }

/-- A state agreeing with `pureStateA` on point set and relaxation only. -/
def pureStateB : SessionState :=
  { currentFileIndex := 4, pointCoordinates := demoPoints, fidCount := 9,
    fiducialPresent := false, volumeLoaded := true,
    boundingBoxNode := some ⟨(1, 1, 1), (2, 2, 2)⟩,
    relaxSlider := 1, niftiFiles := [] }

/-- Model of `np.linalg.norm` of a 3-vector (lines 211-213), idealized as the real
Euclidean norm. -/
noncomputable def npLinalgNorm (v : ℝ × ℝ × ℝ) : ℝ :=
  Real.sqrt (v.1 ^ 2 + v.2.1 ^ 2 + v.2.2 ^ 2)

/-- A frame vector divided by its own Euclidean norm (lines 211-213). -/
noncomputable def normalizeVec (v : ℝ × ℝ × ℝ) : ℝ × ℝ × ℝ :=
  (v.1 / npLinalgNorm v, v.2.1 / npLinalgNorm v, v.2.2 / npLinalgNorm v)

/-- Lines 206-220 of `onCreateBBoxButtonClicked`: the three orientation
columns written into the ROI node's rotation matrix, computed from the
caller-supplied frame vectors (the columns of the volume's IJK-to-RAS
matrix).  Each supplied vector is divided by its own norm before use. -/
noncomputable def frameColumns (x y z : ℝ × ℝ × ℝ) :
    (ℝ × ℝ × ℝ) × (ℝ × ℝ × ℝ) × (ℝ × ℝ × ℝ) :=
  (normalizeVec x, normalizeVec y, normalizeVec z)

/-- Squared Euclidean magnitude of a frame vector. -/
noncomputable def sqMag (v : ℝ × ℝ × ℝ) : ℝ :=
  v.1 ^ 2 + v.2.1 ^ 2 + v.2.2 ^ 2

lemma computeBBox_center_eq (ps : List Point3) (r : ℚ) :
    (computeBBox ps r).center = (computeBBox ps 0).center := by
  simp only [computeBBox, Prod.mk.injEq]
  refine ⟨by ring, by ring, by ring⟩

/-- State invariant maintained by every handler: the recorded coordinate
list mirrors the first six control points of the fiducial node; an absent
fiducial node has no control points; and a stored box implies six placed
control points and a box center equal to the relaxation-independent center
recomputed from the recorded coordinates. -/
def SessionInv (s : SessionState) : Prop :=
  s.pointCoordinates.length = min s.fidCount 6 ∧
  (s.fiducialPresent = false → s.fidCount = 0) ∧
  ∀ b, s.boundingBoxNode = some b →
    6 ≤ s.fidCount ∧ b.center = (computeBBox s.pointCoordinates 0).center

lemma inv_enterPlacementMode {s : SessionState} (h : SessionInv s) :
    SessionInv (enterPlacementMode s) := by
  obtain ⟨h1, h2, h3⟩ := h
  unfold enterPlacementMode SessionInv
  split_ifs with hp
  · exact ⟨h1, h2, h3⟩
  · have hf : s.fidCount = 0 := h2 (by simpa using hp)
    refine ⟨by simpa [hf] using h1, by simp, ?_⟩
    intro b hb
    have := (h3 b hb).1
    omega

lemma inv_clearAnnotationState {s : SessionState} (_ : SessionInv s) :
    SessionInv (clearAnnotationState s) := by
  unfold clearAnnotationState SessionInv
  simp

lemma onPointPlaced_absent {s : SessionState} (p : Point3) (hp : s.fiducialPresent = false) :
    onPointPlaced p s = s := by
  simp [onPointPlaced, hp]

lemma onPointPlaced_append {s : SessionState} (p : Point3) (hp : s.fiducialPresent = true)
    (h6 : s.fidCount + 1 ≤ 6) :
    onPointPlaced p s
      = { s with fidCount := s.fidCount + 1,
                 pointCoordinates := s.pointCoordinates ++ [p] } := by
  simp [onPointPlaced, hp, h6]

lemma onPointPlaced_drop {s : SessionState} (p : Point3) (hp : s.fiducialPresent = true)
    (h6 : ¬ s.fidCount + 1 ≤ 6) :
    onPointPlaced p s = { s with fidCount := s.fidCount + 1 } := by
  simp [onPointPlaced, hp, h6]

lemma inv_onPointPlaced {s : SessionState} (p : Point3) (h : SessionInv s) :
    SessionInv (onPointPlaced p s) := by
  obtain ⟨h1, h2, h3⟩ := h
  by_cases hp : s.fiducialPresent = true
  · by_cases h6 : s.fidCount + 1 ≤ 6
    · rw [onPointPlaced_append p hp h6]
      refine ⟨?_, ?_, ?_⟩
      · show (s.pointCoordinates ++ [p]).length = min (s.fidCount + 1) 6
        simp only [List.length_append, List.length_singleton]
        omega
      · intro hf
        exact absurd (hp.symm.trans hf) (by simp)
      · intro b hb
        have hbs : s.boundingBoxNode = some b := hb
        exact absurd (h3 b hbs).1 (by omega)
    · rw [onPointPlaced_drop p hp h6]
      refine ⟨?_, ?_, ?_⟩
      · show s.pointCoordinates.length = min (s.fidCount + 1) 6
        omega
      · intro hf
        exact absurd (hp.symm.trans hf) (by simp)
      · intro b hb
        have hbs : s.boundingBoxNode = some b := hb
        obtain ⟨hc, he⟩ := h3 b hbs
        refine ⟨?_, he⟩
        show 6 ≤ s.fidCount + 1
        omega
  · rw [onPointPlaced_absent p (by simpa using hp)]
    exact ⟨h1, h2, h3⟩

lemma inv_loadCurrentFile {s : SessionState} (h : SessionInv s) :
    SessionInv (loadCurrentFile s) := by
  unfold loadCurrentFile
  split_ifs with hi
  · exact inv_enterPlacementMode (by unfold clearAnnotationState SessionInv; simp)
  · exact h

lemma inv_onCreateBBoxButtonClicked {s : SessionState} (h : SessionInv s) :
    SessionInv (onCreateBBoxButtonClicked s) := by
  obtain ⟨h1, h2, h3⟩ := h
  unfold onCreateBBoxButtonClicked
  split_ifs with hlt hv
  · exact ⟨h1, h2, h3⟩
  · exact ⟨h1, h2, h3⟩
  · apply inv_enterPlacementMode
    refine ⟨h1, h2, ?_⟩
    intro b hb
    have hb' : computeBBox s.pointCoordinates s.relaxSlider = b := by
      simpa using hb
    constructor
    · show 6 ≤ s.fidCount
      omega
    · show b.center = (computeBBox s.pointCoordinates 0).center
      rw [← hb']
      exact computeBBox_center_eq _ _

lemma inv_onRelaxSliderChanged {s : SessionState} (v : ℚ) (h : SessionInv s) :
    SessionInv (onRelaxSliderChanged v s) := by
  obtain ⟨h1, h2, h3⟩ := h
  unfold onRelaxSliderChanged
  cases hb : ({ s with relaxSlider := v } : SessionState).boundingBoxNode with
  | none => exact ⟨h1, h2, by simp_all⟩
  | some b =>
    simp only
    split_ifs with hlen
    · refine ⟨h1, h2, ?_⟩
      intro b' hb'
      exact h3 b' (by simpa using hb'.symm.trans hb.symm |>.symm)
    · apply inv_enterPlacementMode
      refine ⟨h1, h2, ?_⟩
      intro b' hb'
      simp only [Option.some.injEq] at hb'
      have hbs : s.boundingBoxNode = some b := by simpa using hb
      obtain ⟨hc, he⟩ := h3 b hbs
      refine ⟨hc, ?_⟩
      rw [← hb']
      exact he

lemma inv_onNextButtonClicked {s : SessionState} (h : SessionInv s) :
    SessionInv (onNextButtonClicked s) := by
  unfold onNextButtonClicked
  split_ifs with hi
  · exact inv_loadCurrentFile (by exact ⟨h.1, h.2.1, h.2.2⟩)
  · exact h

lemma inv_onLoadButtonClicked {s : SessionState} (fs : List String) (h : SessionInv s) :
    SessionInv (onLoadButtonClicked fs s) := by
  unfold onLoadButtonClicked
  split_ifs with he
  · exact ⟨h.1, h.2.1, h.2.2⟩
  · exact inv_loadCurrentFile ⟨h.1, h.2.1, h.2.2⟩

lemma inv_onDirectoryChanged {s : SessionState} (h : SessionInv s) :
    SessionInv (onDirectoryChanged s) :=
  inv_clearAnnotationState ⟨h.1, h.2.1, h.2.2⟩

lemma inv_initialState (v0 : ℚ) : SessionInv (initialState v0) := by
  unfold SessionInv initialState
  simp

/-- Every reachable session state satisfies the invariant. -/
theorem reachable_sessionInv {s : SessionState} (h : Reachable s) : SessionInv s := by
  induction h with
  | boot v0 => exact inv_initialState v0
  | evt e h ih =>
    cases e with
    | pointPlaced p => exact inv_onPointPlaced p ih
    | createBBox => exact inv_onCreateBBoxButtonClicked ih
    | relaxChanged v => exact inv_onRelaxSliderChanged v ih
    | submitClicked => exact ih
    | nextClicked => exact inv_onNextButtonClicked ih
    | loadClicked fs => exact inv_onLoadButtonClicked fs ih
    | directoryChanged => exact inv_onDirectoryChanged ih

lemma sessionInv_box_complete {s : SessionState} {b : BBoxNode} (h : SessionInv s)
    (hb : s.boundingBoxNode = some b) : s.pointCoordinates.length = 6 := by
  obtain ⟨h1, _, h3⟩ := h
  have := (h3 b hb).1
  omega

lemma sessionInv_box_present {s : SessionState} {b : BBoxNode} (h : SessionInv s)
    (hb : s.boundingBoxNode = some b) : s.fiducialPresent = true := by
  obtain ⟨_, h2, h3⟩ := h
  have h6 := (h3 b hb).1
  by_cases hp : s.fiducialPresent = true
  · exact hp
  · have := h2 (by simpa using hp)
    omega

lemma deliverPoints_coords (ps : List Point3) :
    ∀ s : SessionState, s.fiducialPresent = true →
      s.pointCoordinates.length = min s.fidCount 6 →
      (deliverPoints ps s).pointCoordinates
        = s.pointCoordinates ++ ps.take (6 - s.fidCount) := by
  induction ps with
  | nil =>
    intro s _ _
    simp [deliverPoints]
  | cons p ps ih =>
    intro s hp hs
    show (deliverPoints ps (onPointPlaced p s)).pointCoordinates = _
    by_cases h6 : s.fidCount + 1 ≤ 6
    · rw [onPointPlaced_append p hp h6]
      rw [ih _ (by exact hp) (by
        show (s.pointCoordinates ++ [p]).length = min (s.fidCount + 1) 6
        simp only [List.length_append, List.length_singleton]
        omega)]
      show (s.pointCoordinates ++ [p]) ++ ps.take (6 - (s.fidCount + 1))
        = s.pointCoordinates ++ (p :: ps).take (6 - s.fidCount)
      rw [List.append_assoc]
      congr 1
      have h' : 6 - s.fidCount = (6 - (s.fidCount + 1)) + 1 := by omega
      rw [h', List.take_succ_cons]
      simp
    · rw [onPointPlaced_drop p hp h6]
      rw [ih _ (by exact hp) (by
        show s.pointCoordinates.length = min (s.fidCount + 1) 6
        omega)]
      have h0 : 6 - (s.fidCount + 1) = 0 := by omega
      have h0' : 6 - s.fidCount = 0 := by omega
      show s.pointCoordinates ++ ps.take (6 - (s.fidCount + 1))
        = s.pointCoordinates ++ (p :: ps).take (6 - s.fidCount)
      rw [h0, h0']
      simp

lemma reachable_deliverPoints (ps : List Point3) :
    ∀ {s : SessionState}, Reachable s → Reachable (deliverPoints ps s) := by
  induction ps with
  | nil => intro s h; exact h
  | cons p ps ih =>
    intro s h
    exact ih (Reachable.evt (.pointPlaced p) h)

lemma enterPlacementMode_box (s : SessionState) :
    (enterPlacementMode s).boundingBoxNode = s.boundingBoxNode := by
  unfold enterPlacementMode
  split_ifs <;> rfl

lemma onCreateBBoxButtonClicked_incomplete {s : SessionState} (h : s.fidCount < 6) :
    onCreateBBoxButtonClicked s = s := by
  simp [onCreateBBoxButtonClicked, h]

lemma onCreateBBoxButtonClicked_success {s : SessionState} (h6 : 6 ≤ s.fidCount)
    (hv : s.volumeLoaded = true) :
    onCreateBBoxButtonClicked s
      = enterPlacementMode
          { s with boundingBoxNode := some (computeBBox s.pointCoordinates s.relaxSlider) } := by
  have h : ¬ s.fidCount < 6 := by omega
  simp [onCreateBBoxButtonClicked, h, hv]

lemma onRelaxSliderChanged_noBox {s : SessionState} {v : ℚ}
    (hb : s.boundingBoxNode = none) :
    onRelaxSliderChanged v s = { s with relaxSlider := v } := by
  simp [onRelaxSliderChanged, hb]

lemma onRelaxSliderChanged_incomplete {s : SessionState} {v : ℚ} {b : BBoxNode}
    (hb : s.boundingBoxNode = some b) (hlen : s.pointCoordinates.length < 6) :
    onRelaxSliderChanged v s = { s with relaxSlider := v } := by
  simp [onRelaxSliderChanged, hb, hlen]

lemma onRelaxSliderChanged_success {s : SessionState} {v : ℚ} {b : BBoxNode}
    (hb : s.boundingBoxNode = some b) (hlen : ¬ s.pointCoordinates.length < 6) :
    onRelaxSliderChanged v s
      = enterPlacementMode
          { s with relaxSlider := v,
                   boundingBoxNode := some ⟨b.center, (computeBBox s.pointCoordinates v).size⟩ } := by
  simp [onRelaxSliderChanged, hb, hlen]

lemma reachable_loadedState : Reachable loadedState :=
  reachable_deliverPoints demoPoints (Reachable.evt (.loadClicked ["a.nii"]) (Reachable.boot 0))

lemma reachable_demoState : Reachable demoState :=
  Reachable.evt .createBBox reachable_loadedState

lemma loadedState_eq :
    loadedState
      = { currentFileIndex := 0, pointCoordinates := demoPoints, fidCount := 6,
          fiducialPresent := true, volumeLoaded := true, boundingBoxNode := none,
          relaxSlider := 0, niftiFiles := ["a.nii"] } := by
  simp [loadedState, deliverPoints, demoPoints, applyEvent, onLoadButtonClicked,
        loadCurrentFile, clearAnnotationState, enterPlacementMode, initialState,
        onPointPlaced]

lemma demoState_eq :
    demoState
      = { currentFileIndex := 0, pointCoordinates := demoPoints, fidCount := 6,
          fiducialPresent := true, volumeLoaded := true,
          boundingBoxNode := some ⟨(5, 5, 5), (10, 10, 10)⟩, relaxSlider := 0,
          niftiFiles := ["a.nii"] } := by
  have h : demoState = onCreateBBoxButtonClicked loadedState := rfl
  rw [h, loadedState_eq]
  norm_num [onCreateBBoxButtonClicked, enterPlacementMode, computeBBox, npMin, npMax,
            vmin, vmax, demoPoints]

/-- C1: for every point set `P` with `1 ≤ |P| ≤ 6` and every relaxation
`r ≥ 0`, the axis-aligned box computed on the create-box request has, on
each axis, half-extents `(max − min)/2 + r` (the node's radius is half the
stored size) and center `(max + min)/2`. -/
theorem createBBox_halfExtents_center (ps : List Point3) (r : ℚ)
    (hlo : 1 ≤ ps.length) (hhi : ps.length ≤ 6) (hr : 0 ≤ r) :
    (computeBBox ps r).size.1 / 2 = ((npMax ps).1 - (npMin ps).1) / 2 + r ∧
    (computeBBox ps r).size.2.1 / 2 = ((npMax ps).2.1 - (npMin ps).2.1) / 2 + r ∧
    (computeBBox ps r).size.2.2 / 2 = ((npMax ps).2.2 - (npMin ps).2.2) / 2 + r ∧
    (computeBBox ps r).center.1 = ((npMax ps).1 + (npMin ps).1) / 2 ∧
    (computeBBox ps r).center.2.1 = ((npMax ps).2.1 + (npMin ps).2.1) / 2 ∧
    (computeBBox ps r).center.2.2 = ((npMax ps).2.2 + (npMin ps).2.2) / 2 := by
  refine ⟨?_, ?_, ?_, ?_, ?_, ?_⟩ <;> (simp only [computeBBox]; ring)

/-- Witness for C1 at the six demo points with relaxation 2. -/
theorem createBBox_halfExtents_center_witness :
    1 ≤ demoPoints.length ∧ demoPoints.length ≤ 6 ∧ (0 : ℚ) ≤ 2 ∧
    ((computeBBox demoPoints 2).size.1 / 2
        = ((npMax demoPoints).1 - (npMin demoPoints).1) / 2 + 2 ∧
      (computeBBox demoPoints 2).size.2.1 / 2
        = ((npMax demoPoints).2.1 - (npMin demoPoints).2.1) / 2 + 2 ∧
      (computeBBox demoPoints 2).size.2.2 / 2
        = ((npMax demoPoints).2.2 - (npMin demoPoints).2.2) / 2 + 2 ∧
      (computeBBox demoPoints 2).center.1
        = ((npMax demoPoints).1 + (npMin demoPoints).1) / 2 ∧
      (computeBBox demoPoints 2).center.2.1
        = ((npMax demoPoints).2.1 + (npMin demoPoints).2.1) / 2 ∧
      (computeBBox demoPoints 2).center.2.2
        = ((npMax demoPoints).2.2 + (npMin demoPoints).2.2) / 2) :=
  ⟨by decide, by decide, by decide,
   createBBox_halfExtents_center demoPoints 2 (by decide) (by decide) (by decide)⟩

/-- C5: in axis-aligned mode, for a fixed non-empty point set, raising the
relaxation from `r` to `r + d` with `d > 0` raises every half-extent
component by exactly `d` and leaves the computed center unchanged. -/
theorem relaxation_monotone (ps : List Point3) (r d : ℚ)
    (hne : ps ≠ []) (hd : 0 < d) :
    (computeBBox ps (r + d)).size.1 / 2 = (computeBBox ps r).size.1 / 2 + d ∧
    (computeBBox ps (r + d)).size.2.1 / 2 = (computeBBox ps r).size.2.1 / 2 + d ∧
    (computeBBox ps (r + d)).size.2.2 / 2 = (computeBBox ps r).size.2.2 / 2 + d ∧
    (computeBBox ps (r + d)).center = (computeBBox ps r).center := by
  refine ⟨?_, ?_, ?_, ?_⟩
  · simp only [computeBBox]; ring
  · simp only [computeBBox]; ring
  · simp only [computeBBox]; ring
  · rw [computeBBox_center_eq ps (r + d), computeBBox_center_eq ps r]

/-- Witness for C5 at the six demo points, `r = 1`, `d = 2`. -/
theorem relaxation_monotone_witness :
    demoPoints ≠ [] ∧ (0 : ℚ) < 2 ∧
    ((computeBBox demoPoints (1 + 2)).size.1 / 2
        = (computeBBox demoPoints 1).size.1 / 2 + 2 ∧
      (computeBBox demoPoints (1 + 2)).size.2.1 / 2
        = (computeBBox demoPoints 1).size.2.1 / 2 + 2 ∧
      (computeBBox demoPoints (1 + 2)).size.2.2 / 2
        = (computeBBox demoPoints 1).size.2.2 / 2 + 2 ∧
      (computeBBox demoPoints (1 + 2)).center = (computeBBox demoPoints 1).center) :=
  ⟨by decide, by decide, relaxation_monotone demoPoints 1 2 (by decide) (by decide)⟩

/-- C2: delivering any sequence of committed points to a fresh collector
(empty coordinate list, fresh fiducial node) leaves exactly the first six
points recorded, in delivery order; the recorded set never exceeds six, and
later points are dropped without an error. -/
theorem pointSet_capped_at_six (ps : List Point3) (s : SessionState)
    (hc : s.pointCoordinates = []) (hf : s.fidCount = 0)
    (hp : s.fiducialPresent = true) :
    (deliverPoints ps s).pointCoordinates = ps.take 6 ∧
    (deliverPoints ps s).pointCoordinates.length ≤ 6 := by
  have h := deliverPoints_coords ps s hp (by rw [hc, hf]; rfl)
  rw [hc, hf] at h
  simp only [List.nil_append] at h
  refine ⟨h, ?_⟩
  rw [h]
  simp [List.length_take]

/-- Witness for C2: ten points delivered to the initial session leave
exactly the first six demo points recorded. -/
theorem pointSet_capped_at_six_witness :
    (deliverPoints (demoPoints ++ [(99, 0, 0), (0, 99, 0), (7, 7, 7), (8, 8, 8)])
        (initialState 0)).pointCoordinates
      = (demoPoints ++ [(99, 0, 0), (0, 99, 0), (7, 7, 7), (8, 8, 8)]).take 6 ∧
    (deliverPoints (demoPoints ++ [(99, 0, 0), (0, 99, 0), (7, 7, 7), (8, 8, 8)])
        (initialState 0)).pointCoordinates.length ≤ 6 :=
  pointSet_capped_at_six (demoPoints ++ [(99, 0, 0), (0, 99, 0), (7, 7, 7), (8, 8, 8)])
    (initialState 0) (by decide) (by decide) (by decide)

/-- C6: the stored box is a pure function of the recorded point set and the
relaxation value: two create-box requests made in any two states that agree
on those two inputs (whatever the other session fields are) store exactly
equal boxes, namely the calculator's output on those inputs. -/
theorem calculator_pure (s t : SessionState)
    (hpts : s.pointCoordinates = t.pointCoordinates)
    (hrel : s.relaxSlider = t.relaxSlider)
    (hs6 : 6 ≤ s.fidCount) (ht6 : 6 ≤ t.fidCount)
    (hsv : s.volumeLoaded = true) (htv : t.volumeLoaded = true) :
    (onCreateBBoxButtonClicked s).boundingBoxNode
      = (onCreateBBoxButtonClicked t).boundingBoxNode ∧
    (onCreateBBoxButtonClicked s).boundingBoxNode
      = some (computeBBox s.pointCoordinates s.relaxSlider) := by
  rw [onCreateBBoxButtonClicked_success hs6 hsv,
      onCreateBBoxButtonClicked_success ht6 htv,
      enterPlacementMode_box, enterPlacementMode_box]
  constructor
  · show some (computeBBox s.pointCoordinates s.relaxSlider)
        = some (computeBBox t.pointCoordinates t.relaxSlider)
    rw [hpts, hrel]
  · rfl

/-- Witness for C6 on two concrete states differing in every field other
than the point set and the relaxation value. -/
theorem calculator_pure_witness :
    pureStateA.pointCoordinates = pureStateB.pointCoordinates ∧
    pureStateA.relaxSlider = pureStateB.relaxSlider ∧
    ((onCreateBBoxButtonClicked pureStateA).boundingBoxNode
        = (onCreateBBoxButtonClicked pureStateB).boundingBoxNode ∧
      (onCreateBBoxButtonClicked pureStateA).boundingBoxNode
        = some (computeBBox pureStateA.pointCoordinates pureStateA.relaxSlider)) :=
  ⟨by decide, by decide,
   calculator_pure pureStateA pureStateB (by decide) (by decide) (by decide) (by decide)
     (by decide) (by decide)⟩

/-- C9: clicking Next with the current index at (or past) the last volume
changes nothing at all; otherwise it increments the index by one and resets
the volume's annotation state, discarding the stored box and emptying the
recorded point set. -/
theorem advance_behavior (s : SessionState) :
    (s.niftiFiles.length ≤ s.currentFileIndex + 1 → onNextButtonClicked s = s) ∧
    (s.currentFileIndex + 1 < s.niftiFiles.length →
      (onNextButtonClicked s).currentFileIndex = s.currentFileIndex + 1 ∧
      (onNextButtonClicked s).boundingBoxNode = none ∧
      (onNextButtonClicked s).pointCoordinates = []) := by
  constructor
  · intro h
    unfold onNextButtonClicked
    rw [if_neg (by omega)]
  · intro h
    unfold onNextButtonClicked
    rw [if_pos (by omega)]
    unfold loadCurrentFile
    rw [if_pos (by show s.currentFileIndex + 1 < s.niftiFiles.length; omega)]
    refine ⟨?_, ?_, ?_⟩ <;> simp [enterPlacementMode, clearAnnotationState]

/-- Witness for C9: a no-op at the last index of a two-volume batch, and a
genuine advance from its first index. -/
theorem advance_behavior_witness :
    (onNextButtonClicked demoState = demoState) ∧
    ((onNextButtonClicked { demoState with niftiFiles := ["a.nii", "b.nii"] }).currentFileIndex
        = demoState.currentFileIndex + 1 ∧
      (onNextButtonClicked { demoState with niftiFiles := ["a.nii", "b.nii"] }).boundingBoxNode
        = none ∧
      (onNextButtonClicked { demoState with niftiFiles := ["a.nii", "b.nii"] }).pointCoordinates
        = []) :=
  ⟨(advance_behavior demoState).1 (by decide),
   (advance_behavior { demoState with niftiFiles := ["a.nii", "b.nii"] }).2 (by decide)⟩

/-- C10 (implicit): a relaxation update is also a silent no-op on the box —
no size or position change, no error — whenever fewer than six points are
recorded, even if a bounding box is currently stored; only the slider's own
value changes. -/
theorem relaxUpdate_noop_incomplete (s : SessionState) (v : ℚ) (b : BBoxNode)
    (hb : s.boundingBoxNode = some b) (hlen : s.pointCoordinates.length < 6) :
    onRelaxSliderChanged v s = { s with relaxSlider := v } :=
  onRelaxSliderChanged_incomplete hb hlen

/-- Witness for C10: a state holding a box but only five recorded points. -/
theorem relaxUpdate_noop_incomplete_witness :
    ({ pureStateB with pointCoordinates := demoPoints.take 5 } : SessionState).boundingBoxNode
      = some ⟨(1, 1, 1), (2, 2, 2)⟩ ∧
    ({ pureStateB with pointCoordinates := demoPoints.take 5 } : SessionState).pointCoordinates.length < 6 ∧
    onRelaxSliderChanged 7 { pureStateB with pointCoordinates := demoPoints.take 5 }
      = { pureStateB with pointCoordinates := demoPoints.take 5, relaxSlider := 7 } :=
  ⟨by decide, by decide,
   relaxUpdate_noop_incomplete { pureStateB with pointCoordinates := demoPoints.take 5 } 7
     ⟨(1, 1, 1), (2, 2, 2)⟩ (by decide) (by decide)⟩

/-- C4: in any reachable session, a relaxation update with no stored box
changes nothing beyond the slider's own externally-set value; with a stored
box it recomputes the box from scratch from the recorded point set and the
new relaxation via the calculator and stores exactly that recomputed box. -/
theorem relaxUpdate_behavior (s : SessionState) (v : ℚ) (hre : Reachable s) :
    (s.boundingBoxNode = none → onRelaxSliderChanged v s = { s with relaxSlider := v }) ∧
    (∀ b, s.boundingBoxNode = some b →
      onRelaxSliderChanged v s
        = enterPlacementMode
            { s with relaxSlider := v,
                     boundingBoxNode := some (computeBBox s.pointCoordinates v) }) := by
  have hinv := reachable_sessionInv hre
  constructor
  · intro hb
    exact onRelaxSliderChanged_noBox hb
  · intro b hb
    have hlen : s.pointCoordinates.length = 6 := sessionInv_box_complete hinv hb
    have hcen : b.center = (computeBBox s.pointCoordinates 0).center := (hinv.2.2 b hb).2
    rw [onRelaxSliderChanged_success hb (by omega)]
    have hbox : (⟨b.center, (computeBBox s.pointCoordinates v).size⟩ : BBoxNode)
        = computeBBox s.pointCoordinates v := by
      have hc2 : b.center = (computeBBox s.pointCoordinates v).center := by
        rw [hcen]
        exact (computeBBox_center_eq s.pointCoordinates v).symm
      rw [hc2]
    rw [hbox]

/-- Witness for C4: the reachable demo session, slider moved to 3. -/
theorem relaxUpdate_behavior_witness :
    demoState.boundingBoxNode = some ⟨(5, 5, 5), (10, 10, 10)⟩ ∧
    onRelaxSliderChanged 3 demoState
      = enterPlacementMode
          { demoState with relaxSlider := 3,
                           boundingBoxNode := some (computeBBox demoState.pointCoordinates 3) } :=
  ⟨by rw [demoState_eq],
   (relaxUpdate_behavior demoState 3 reachable_demoState).2 ⟨(5, 5, 5), (10, 10, 10)⟩
     (by rw [demoState_eq])⟩

/-- C7: in any reachable session, a create-box request with an incomplete
point set (fewer than six points) changes nothing; with a complete point
set (and the loaded volume the handler consults for its orientation frame)
it stores the calculator's output on the current point set and current
relaxation. -/
theorem boxCreation_behavior (s : SessionState) (hre : Reachable s) :
    (s.pointCoordinates.length < 6 → onCreateBBoxButtonClicked s = s) ∧
    (s.pointCoordinates.length = 6 → s.volumeLoaded = true →
      onCreateBBoxButtonClicked s
        = enterPlacementMode
            { s with
                boundingBoxNode := some (computeBBox s.pointCoordinates s.relaxSlider) }) := by
  have hinv := reachable_sessionInv hre
  constructor
  · intro hlen
    have h1 := hinv.1
    exact onCreateBBoxButtonClicked_incomplete (by omega)
  · intro hlen hv
    have h1 := hinv.1
    exact onCreateBBoxButtonClicked_success (by omega) hv

/-- Witness for C7: a refused create in the fresh session and a successful
create in the loaded six-point session. -/
theorem boxCreation_behavior_witness :
    (initialState 0).pointCoordinates.length < 6 ∧
    onCreateBBoxButtonClicked (initialState 0) = initialState 0 ∧
    loadedState.pointCoordinates.length = 6 ∧
    onCreateBBoxButtonClicked loadedState
      = enterPlacementMode
          { loadedState with
              boundingBoxNode := some (computeBBox loadedState.pointCoordinates loadedState.relaxSlider) } :=
  ⟨by decide,
   (boxCreation_behavior (initialState 0) (Reachable.boot 0)).1 (by decide),
   by decide,
   (boxCreation_behavior loadedState reachable_loadedState).2 (by decide) (by decide)⟩

/-- C8: submitting never mutates the session; with no stored box no record
is produced; in any reachable session holding a box (and an in-range
current file index, as Python's list indexing requires) the emitted record
is fully populated: the volume's filename, exactly the six recorded point
triples, the box center, a size equal to twice the node's radius (hence
equal to the stored size), and the current relaxation. -/
theorem recordEmission_behavior (s : SessionState) (hre : Reachable s) :
    (onSubmitButtonClicked s).1 = s ∧
    (s.boundingBoxNode = none → (onSubmitButtonClicked s).2 = none) ∧
    (∀ b, s.boundingBoxNode = some b →
      ∀ hidx : s.currentFileIndex < s.niftiFiles.length,
        ∃ rec, (onSubmitButtonClicked s).2 = some rec ∧
          rec.filename = s.niftiFiles.get ⟨s.currentFileIndex, hidx⟩ ∧
          rec.points = s.pointCoordinates ∧
          rec.points.length = 6 ∧
          rec.center = b.center ∧
          rec.size = b.size ∧
          rec.relaxation = s.relaxSlider) := by
  have hinv := reachable_sessionInv hre
  refine ⟨rfl, ?_, ?_⟩
  · intro hb
    show emitRecord s = none
    simp [emitRecord, hb]
  · intro b hb hidx
    have hlen : s.pointCoordinates.length = 6 := sessionInv_box_complete hinv hb
    refine ⟨⟨s.niftiFiles.getD s.currentFileIndex "", s.pointCoordinates, b.center,
      (b.size.1 / 2 * 2, b.size.2.1 / 2 * 2, b.size.2.2 / 2 * 2), s.relaxSlider⟩,
      ?_, ?_, rfl, hlen, rfl, ?_, rfl⟩
    · show emitRecord s = _
      simp [emitRecord, hb, hlen]
    · exact List.getD_eq_get _ _ hidx
    · show ((b.size.1 / 2 * 2, b.size.2.1 / 2 * 2, b.size.2.2 / 2 * 2) : Point3) = b.size
      obtain ⟨bc, x, y, z⟩ := b
      simp only [Prod.mk.injEq]
      refine ⟨by ring, by ring, by ring⟩

/-- Witness for C8 on the reachable demo session. -/
theorem recordEmission_behavior_witness :
    demoState.boundingBoxNode = some ⟨(5, 5, 5), (10, 10, 10)⟩ ∧
    (onSubmitButtonClicked demoState).1 = demoState ∧
    (∃ rec, (onSubmitButtonClicked demoState).2 = some rec ∧
      rec.filename = demoState.niftiFiles.get ⟨demoState.currentFileIndex, by decide⟩ ∧
      rec.points = demoState.pointCoordinates ∧
      rec.points.length = 6 ∧
      rec.center = (⟨(5, 5, 5), (10, 10, 10)⟩ : BBoxNode).center ∧
      rec.size = (⟨(5, 5, 5), (10, 10, 10)⟩ : BBoxNode).size ∧
      rec.relaxation = demoState.relaxSlider) :=
  ⟨by rw [demoState_eq],
   (recordEmission_behavior demoState reachable_demoState).1,
   (recordEmission_behavior demoState reachable_demoState).2.2 ⟨(5, 5, 5), (10, 10, 10)⟩
     (by rw [demoState_eq]) (by decide)⟩

lemma sqMag_nonneg (v : ℝ × ℝ × ℝ) : 0 ≤ sqMag v := by
  unfold sqMag
  positivity

lemma sqMag_normalizeVec {v : ℝ × ℝ × ℝ} (h : sqMag v ≠ 0) :
    sqMag (normalizeVec v) = 1 := by
  unfold sqMag normalizeVec
  rw [div_pow, div_pow, div_pow]
  have h2 : npLinalgNorm v ^ 2 = v.1 ^ 2 + v.2.1 ^ 2 + v.2.2 ^ 2 :=
    Real.sq_sqrt (by positivity)
  rw [h2, div_add_div_same, div_add_div_same]
  exact div_self (by simpa [sqMag] using h)

/-- C3 counterexample: the create-box handler does normalize the supplied
frame vectors on behalf of the caller.  For the non-unit input frame
`(2,0,0), (0,1,0), (0,0,1)` the stored rotation columns differ from the
supplied vectors — the first column is `(1,0,0)`, the normalization of
`(2,0,0)` — refuting the claim that no normalization is performed (the
source also has no `InvalidFrame` check: `frameColumns` is total and a
near-zero vector is simply divided by its own norm). -/
theorem frame_not_normalized_counterexample :
    frameColumns ((2 : ℝ), 0, 0) (0, 1, 0) (0, 0, 1)
      ≠ (((2 : ℝ), 0, 0), ((0 : ℝ), 1, 0), ((0 : ℝ), 0, 1)) := by
  intro h
  have h1 : normalizeVec ((2 : ℝ), 0, 0) = ((2 : ℝ), 0, 0) := congrArg Prod.fst h
  have hn : npLinalgNorm ((2 : ℝ), 0, 0) = 2 := by
    have h4 : ((2 : ℝ) ^ 2 + 0 ^ 2 + 0 ^ 2) = 2 ^ 2 := by norm_num
    unfold npLinalgNorm
    rw [h4]
    exact Real.sqrt_sq (by norm_num)
  have h2 : normalizeVec ((2 : ℝ), 0, 0) = ((1 : ℝ), 0, 0) := by
    unfold normalizeVec
    rw [hn]
    norm_num
  rw [h2] at h1
  norm_num [Prod.ext_iff] at h1

/-- C3 amended: in oriented mode the calculator itself normalizes each
supplied frame vector (each stored column is the vector divided by its own
Euclidean norm, hence of unit squared magnitude whenever the vector's
magnitude is non-zero); there is no `InvalidFrame` failure condition. -/
theorem frameColumns_normalized (x y z : ℝ × ℝ × ℝ)
    (hx : sqMag x ≠ 0) (hy : sqMag y ≠ 0) (hz : sqMag z ≠ 0) :
    frameColumns x y z = (normalizeVec x, normalizeVec y, normalizeVec z) ∧
    sqMag (normalizeVec x) = 1 ∧ sqMag (normalizeVec y) = 1 ∧
    sqMag (normalizeVec z) = 1 :=
  ⟨rfl, sqMag_normalizeVec hx, sqMag_normalizeVec hy, sqMag_normalizeVec hz⟩

/-- Witness for the amended C3 at a concrete non-unit frame. -/
theorem frameColumns_normalized_witness :
    sqMag ((2 : ℝ), 0, 0) ≠ 0 ∧ sqMag ((0 : ℝ), 3, 0) ≠ 0 ∧ sqMag ((0 : ℝ), 0, 5) ≠ 0 ∧
    (frameColumns ((2 : ℝ), 0, 0) ((0 : ℝ), 3, 0) ((0 : ℝ), 0, 5)
        = (normalizeVec ((2 : ℝ), 0, 0), normalizeVec ((0 : ℝ), 3, 0),
           normalizeVec ((0 : ℝ), 0, 5)) ∧
      sqMag (normalizeVec ((2 : ℝ), 0, 0)) = 1 ∧
      sqMag (normalizeVec ((0 : ℝ), 3, 0)) = 1 ∧
      sqMag (normalizeVec ((0 : ℝ), 0, 5)) = 1) :=
  ⟨by norm_num [sqMag], by norm_num [sqMag], by norm_num [sqMag],
   frameColumns_normalized _ _ _ (by norm_num [sqMag]) (by norm_num [sqMag])
     (by norm_num [sqMag])⟩
